import Mathlib

/-! Shallow embedding of the nimo payment-relay server. The repository holds two
variants of the same Express application: `src/server.js` (namespace `S`) and
`src/unnamed/part_000` (namespace `P0`). Each exposes JSON HTTP routes that
authenticate a caller against the upstream Pi identity endpoint and then relay
balance and payment operations using a service credential. The embedding keeps
the request/response data model, the authentication middleware, each route
handler, and the trace of outbound upstream calls a request provokes.
-/

namespace Nimo

/-- JSON scalar values as they appear in response bodies. -/
inductive JVal where
  | s (v : String)
  | n (v : Int)
  | b (v : Bool)
deriving DecidableEq

/-- A serialized JSON object body: fields in emission order. A field whose
JavaScript value is `undefined` is dropped by `JSON.stringify`, hence absent
from this list. -/
abbrev Body := List (String × JVal)

/-- An HTTP response as produced by `res.status(...).json(...)` (the default
status of `res.json` is 200). -/
structure Response where
  status : Nat
  body : Body
deriving DecidableEq

/-- An inbound HTTP request, restricted to the parts the handlers read:
the Authorization header, the caller-supplied X-User-Uid header, the JSON body
fields `paymentId` and `txid`, and the `:paymentId` path parameter. -/
structure Request where
  authorization : Option String
  xUserUid : Option String
  bodyPaymentId : Option String
  bodyTxid : Option String
  pathPaymentId : String
deriving DecidableEq

/-- Response data of the upstream `GET /me` identity endpoint, restricted to the
fields the code reads. -/
structure MeData where
  uid : Option String
  username : Option String
  wallet_address : Option String
deriving DecidableEq

/-- Response data of the upstream balance endpoint, as read by the code. -/
structure BalanceData where
  available_balance : Option JVal
  locked_balance : Option JVal
deriving DecidableEq

/-- Response data of the upstream payment-approval endpoint. -/
structure ApproveData where
  status : Option JVal
  amount : Option JVal
  memo : Option JVal
deriving DecidableEq

/-- The nested `transaction` object of upstream payment responses. -/
structure TxData where
  txid : Option JVal
  verified : Option JVal
deriving DecidableEq

/-- Response data of the upstream payment-completion endpoint. -/
structure CompleteData where
  status : Option JVal
  transaction : Option TxData
deriving DecidableEq

/-- Response data of the upstream payment-details endpoint. -/
structure PaymentData where
  identifier : Option JVal
  amount : Option JVal
  status : Option JVal
  created_at : Option JVal
  transaction : Option TxData
deriving DecidableEq

/-- Result of one axios call: either parsed response data, or a thrown error
carrying `error.response?.status`, `error.response?.data?.message` and the
JavaScript `error.message`. -/
inductive AxiosResult (α : Type) where
  | ok (data : α)
  | fail (status : Option Nat) (dataMessage : Option String) (errMessage : String)
deriving DecidableEq

/-- The upstream Pi API, given as the responses it would return to each call the
relay can make during one request. -/
structure Upstream where
  me : String → AxiosResult MeData
  balance : String → AxiosResult BalanceData
  approvePayment : String → AxiosResult ApproveData
  completePayment : String → String → AxiosResult CompleteData
  payment : String → AxiosResult PaymentData

/-- Server environment fixed at request-handling time. `now` is the string that
`new Date().toISOString()` produces during the request. -/
structure Env where
  piApiKey : String
  frontendUrl : String
  nodeEnv : Option String
  now : String

/-- Raw process environment inspected at startup. -/
structure ProcEnv where
  PI_API_KEY : Option String
  FRONTEND_URL : Option String
  PORT : Option String
  NODE_ENV : Option String
deriving DecidableEq

/-- JavaScript falsiness of a possibly-absent string value: `undefined`, `null`
and `""` are falsy. -/
def jsFalsyStr : Option String → Bool
  | none => true
  | some s => s == ""

/-- JavaScript `String.prototype.split(' ')` on the underlying character list. -/
def splitChars : List Char → List (List Char)
  | [] => [[]]
  | c :: cs =>
    if c = ' ' then [] :: splitChars cs
    else (c :: (splitChars cs).headD []) :: (splitChars cs).tail

/-- JavaScript `s.split(' ')`. -/
def jsSplitSpace (s : String) : List String :=
  (splitChars s.data).map (fun l => String.mk l)

/-- The characters of a list before its first space: the value of
`split(' ')[1]` applied after a `"Bearer "` prefix. -/
def upToSpace : List Char → List Char
  | [] => []
  | c :: cs => if c = ' ' then [] else c :: upToSpace cs

/-- JavaScript `s.startsWith(pre)`. -/
def strStarts (s pre : String) : Bool :=
  pre.data.isPrefixOf s.data

/-- Token extraction performed by both authentication middlewares:
`authHeader.split(' ')[1]` (the empty string standing for the out-of-range
access, which cannot occur after the scheme check). -/
def reqToken (req : Request) : String :=
  match req.authorization with
  | some h => (jsSplitSpace h).getD 1 ""
  | none => ""

/-- One outbound HTTP call, tagged by whether it is the identity verification
(`me`) or an operation-specific call (`op`), with full URL and Authorization
header value. -/
inductive Call where
  | me (url : String) (authz : String)
  | op (url : String) (authz : String)
deriving DecidableEq

/-- Whether a call is an operation-specific upstream call. -/
def Call.isOp : Call → Bool
  | .op _ _ => true
  | .me _ _ => false

/-- The trace contains no operation-specific upstream call. -/
def noOps (tr : List Call) : Prop := tr.filter Call.isOp = []

/-- The verified identity the middleware attaches to the request (`req.user`). -/
structure Identity where
  uid : String
  username : Option String
  walletAddress : Option String
deriving DecidableEq

/-- Outcome of the authentication middleware: an immediate error response, or
`next()` with an identity attached. -/
inductive AuthResult where
  | denied (resp : Response)
  | granted (user : Identity)
deriving DecidableEq

/-- Fixed 401 response for a missing or non-Bearer Authorization header. -/
def missingCred : Response := ⟨401, [("error", JVal.s "Authorization header required")]⟩

/-- Fixed 401 response when the upstream identity data carries no truthy uid. -/
def invalidTok : Response := ⟨401, [("error", JVal.s "Invalid authentication token")]⟩

/-- Fixed 404 response of the catch-all handler. -/
def notFound : Response := ⟨404, [("error", JVal.s "Endpoint not found")]⟩

/-- A body field that is dropped when the JavaScript value is `undefined`. -/
def optEntry (k : String) : Option JVal → Body
  | some v => [(k, v)]
  | none => []

/-- Generic route wiring: run the authentication middleware; on success run the
handler and concatenate the traces of outbound calls. -/
def route (auth : Env → Upstream → Request → AuthResult × List Call)
    (handler : Env → Upstream → Identity → Request → Response × List Call)
    (e : Env) (up : Upstream) (req : Request) : Response × List Call :=
  match auth e up req with
  | (.denied r, tr) => (r, tr)
  | (.granted u, tr) =>
    let x := handler e up u req
    (x.1, tr ++ x.2)

namespace S

/-- The `PI_API_URL` of src/server.js: production or testnet base URL selected
by `NODE_ENV === "production"`. -/
def piApiUrl (e : Env) : String :=
  if e.nodeEnv = some "production" then "https://api.minepi.com/v2"
  else "https://api.testnet.minepi.com/v2"

/-- Whether `NODE_ENV === "development"`. -/
def isDev (e : Env) : Bool := e.nodeEnv = some "development"

/-- Body of the authentication catch block: a fixed message, plus a `details`
field in development mode. -/
def authFailBody (e : Env) (errMessage : String) : Body :=
  ("error", JVal.s "Authentication failed") ::
    (if isDev e then [("details", JVal.s errMessage)] else [])

/-- Continuation of `authenticatePiRequest` once the `/me` call has returned. -/
def afterMe (e : Env) : AxiosResult MeData → AuthResult
  | .ok d =>
    if jsFalsyStr d.uid then .denied invalidTok
    else .granted ⟨d.uid.getD "", d.username, d.wallet_address⟩
  | .fail st _ m => .denied ⟨st.getD 500, authFailBody e m⟩

/-- The `authenticatePiRequest` middleware of src/server.js. -/
def authenticate (e : Env) (up : Upstream) (req : Request) : AuthResult × List Call :=
  match req.authorization with
  | none => (.denied missingCred, [])
  | some h =>
    if strStarts h "Bearer " then
      (afterMe e (up.me ((jsSplitSpace h).getD 1 "")),
       [Call.me (piApiUrl e ++ "/me") ("Bearer " ++ (jsSplitSpace h).getD 1 "")])
    else (.denied missingCred, [])

/-- The `GET /api/balance` operation of src/server.js, after authentication. -/
def balanceHandler (e : Env) (up : Upstream) (u : Identity) : Response × List Call :=
  let call := Call.op (piApiUrl e ++ "/accounts/" ++ u.uid ++ "/balance") ("Key " ++ e.piApiKey)
  match up.balance u.uid with
  | .ok d =>
    (⟨200, optEntry "available" d.available_balance ++ optEntry "locked" d.locked_balance ++
        [("currency", JVal.s "PI"), ("last_updated", JVal.s e.now)]⟩, [call])
  | .fail _ _ _ => (⟨500, [("error", JVal.s "Failed to fetch balance")]⟩, [call])

/-- The full `GET /api/balance` route of src/server.js. -/
def serveBalance : Env → Upstream → Request → Response × List Call :=
  route authenticate (fun e up u _ => balanceHandler e up u)

/-- The `POST /api/approve` operation of src/server.js, after authentication. -/
def approveHandler (e : Env) (up : Upstream) (req : Request) : Response × List Call :=
  if jsFalsyStr req.bodyPaymentId then
    (⟨400, [("error", JVal.s "Missing payment ID")]⟩, [])
  else
    let pid := req.bodyPaymentId.getD ""
    let call := Call.op (piApiUrl e ++ "/payments/" ++ pid ++ "/approve") ("Key " ++ e.piApiKey)
    match up.approvePayment pid with
    | .ok d =>
      (⟨200, optEntry "status" d.status ++ [("payment_id", JVal.s pid)] ++
          optEntry "amount" d.amount ++ optEntry "memo" d.memo⟩, [call])
    | .fail _ _ _ => (⟨500, [("error", JVal.s "Payment approval failed")]⟩, [call])

/-- The full `POST /api/approve` route of src/server.js. -/
def serveApprove : Env → Upstream → Request → Response × List Call :=
  route authenticate (fun e up _ req => approveHandler e up req)

/-- The `POST /api/complete` operation of src/server.js, after authentication. -/
def completeHandler (e : Env) (up : Upstream) (req : Request) : Response × List Call :=
  if jsFalsyStr req.bodyPaymentId || jsFalsyStr req.bodyTxid then
    (⟨400, [("error", JVal.s "Missing payment ID or transaction ID")]⟩, [])
  else
    let pid := req.bodyPaymentId.getD ""
    let tx := req.bodyTxid.getD ""
    let call := Call.op (piApiUrl e ++ "/payments/" ++ pid ++ "/complete") ("Key " ++ e.piApiKey)
    match up.completePayment pid tx with
    | .ok d =>
      (⟨200, optEntry "status" d.status ++ [("payment_id", JVal.s pid), ("txid", JVal.s tx)] ++
          optEntry "verified" (d.transaction.bind TxData.verified) ++
          [("completed_at", JVal.s e.now)]⟩, [call])
    | .fail _ _ _ => (⟨500, [("error", JVal.s "Payment completion failed")]⟩, [call])

/-- The full `POST /api/complete` route of src/server.js. -/
def serveComplete : Env → Upstream → Request → Response × List Call :=
  route authenticate (fun e up _ req => completeHandler e up req)

/-- The `GET /api/payment/:paymentId` operation of src/server.js. -/
def paymentHandler (e : Env) (up : Upstream) (req : Request) : Response × List Call :=
  let pid := req.pathPaymentId
  let call := Call.op (piApiUrl e ++ "/payments/" ++ pid) ("Key " ++ e.piApiKey)
  match up.payment pid with
  | .ok d =>
    (⟨200, optEntry "id" d.identifier ++ optEntry "amount" d.amount ++
        optEntry "status" d.status ++ optEntry "created_at" d.created_at ++
        optEntry "txid" (d.transaction.bind TxData.txid) ++
        optEntry "verified" (d.transaction.bind TxData.verified)⟩, [call])
  | .fail _ _ _ => (⟨500, [("error", JVal.s "Failed to fetch payment details")]⟩, [call])

/-- The full `GET /api/payment/:paymentId` route of src/server.js. -/
def servePayment : Env → Upstream → Request → Response × List Call :=
  route authenticate (fun e up _ req => paymentHandler e up req)

/-- The `GET /api/health` endpoint of src/server.js (no authentication). -/
def healthResp (e : Env) : Response :=
  ⟨200, [("status", JVal.s "operational"), ("version", JVal.s "1.0.0"),
    ("environment", JVal.s (e.nodeEnv.getD "development")),
    ("timestamp", JVal.s e.now)]⟩

/-- The error-handling middleware of src/server.js. -/
def errorMw : Response := ⟨500, [("error", JVal.s "Internal server error")]⟩

/-- The `requiredEnvVars` list checked at startup by src/server.js. -/
def requiredEnvVars : List String := ["PI_API_KEY", "FRONTEND_URL"]

/-- Lookup of `process.env[name]` for the four settings the spec names. -/
def lookupEnvVar (p : ProcEnv) : String → Option String
  | "PI_API_KEY" => p.PI_API_KEY
  | "FRONTEND_URL" => p.FRONTEND_URL
  | "PORT" => p.PORT
  | "NODE_ENV" => p.NODE_ENV
  | _ => none

/-- Startup validation of src/server.js: `requiredEnvVars.forEach` throws on any
falsy value. -/
def startupThrows (p : ProcEnv) : Bool :=
  requiredEnvVars.any (fun v => jsFalsyStr (lookupEnvVar p v))

end S

namespace P0

/-- Modelled from the spec: `piConfig.mainnet.apiUrl` is loaded from
`./config/pi-config`, a file of this repository that is not under src/. Per the
spec the production upstream base URL is the mainnet Pi API URL. -/
def piApiUrl : String := "https://api.minepi.com/v2"

/-- Continuation of the part_000 `authenticatePiRequest` once `/me` returned:
the catch block propagates `error.response?.status || 500` and surfaces
`error.response?.data?.message || "Authentication failed"`. -/
def afterMe : AxiosResult MeData → AuthResult
  | .ok d =>
    if jsFalsyStr d.uid then .denied invalidTok
    else .granted ⟨d.uid.getD "", d.username, d.wallet_address⟩
  | .fail st dm _ =>
    .denied ⟨st.getD 500, [("error", JVal.s (dm.getD "Authentication failed"))]⟩

/-- The `authenticatePiRequest` middleware of src/unnamed/part_000. -/
def authenticate (_e : Env) (up : Upstream) (req : Request) : AuthResult × List Call :=
  match req.authorization with
  | none => (.denied missingCred, [])
  | some h =>
    if strStarts h "Bearer " then
      (afterMe (up.me ((jsSplitSpace h).getD 1 "")),
       [Call.me (piApiUrl ++ "/me") ("Bearer " ++ (jsSplitSpace h).getD 1 "")])
    else (.denied missingCred, [])

/-- The `GET /api/balance` operation of part_000: success keeps the upstream
field names `available_balance` and `locked_balance`; failure propagates the
upstream status and message. -/
def balanceHandler (e : Env) (up : Upstream) (u : Identity) : Response × List Call :=
  let call := Call.op (piApiUrl ++ "/accounts/" ++ u.uid ++ "/balance") ("Key " ++ e.piApiKey)
  match up.balance u.uid with
  | .ok d =>
    (⟨200, optEntry "available_balance" d.available_balance ++
        optEntry "locked_balance" d.locked_balance ++
        [("currency", JVal.s "PI"), ("last_updated", JVal.s e.now)]⟩, [call])
  | .fail st dm _ =>
    (⟨st.getD 500, [("error", JVal.s (dm.getD "Failed to fetch balance"))]⟩, [call])

/-- The full `GET /api/balance` route of part_000. -/
def serveBalance : Env → Upstream → Request → Response × List Call :=
  route authenticate (fun e up u _ => balanceHandler e up u)

/-- The `POST /api/approve` operation of part_000. Its validation also tests
`typeof paymentId !== "string"`, which cannot fire in this model where the body
field, when present, is a string; the falsiness test remains. -/
def approveHandler (e : Env) (up : Upstream) (req : Request) : Response × List Call :=
  if jsFalsyStr req.bodyPaymentId then
    (⟨400, [("error", JVal.s "Invalid payment ID")]⟩, [])
  else
    let pid := req.bodyPaymentId.getD ""
    let call := Call.op (piApiUrl ++ "/payments/" ++ pid ++ "/approve") ("Key " ++ e.piApiKey)
    match up.approvePayment pid with
    | .ok d =>
      (⟨200, optEntry "status" d.status ++
          [("payment_id", JVal.s pid), ("timestamp", JVal.s e.now)]⟩, [call])
    | .fail st dm _ =>
      (⟨st.getD 500, [("error", JVal.s (dm.getD "Payment approval failed"))]⟩, [call])

/-- The full `POST /api/approve` route of part_000. -/
def serveApprove : Env → Upstream → Request → Response × List Call :=
  route authenticate (fun e up _ req => approveHandler e up req)

/-- The `POST /api/complete` operation of part_000. -/
def completeHandler (e : Env) (up : Upstream) (req : Request) : Response × List Call :=
  if jsFalsyStr req.bodyPaymentId || jsFalsyStr req.bodyTxid then
    (⟨400, [("error", JVal.s "Missing payment ID or transaction ID")]⟩, [])
  else
    let pid := req.bodyPaymentId.getD ""
    let tx := req.bodyTxid.getD ""
    let call := Call.op (piApiUrl ++ "/payments/" ++ pid ++ "/complete") ("Key " ++ e.piApiKey)
    match up.completePayment pid tx with
    | .ok d =>
      (⟨200, optEntry "status" d.status ++
          [("payment_id", JVal.s pid), ("txid", JVal.s tx),
           ("completed_at", JVal.s e.now)]⟩, [call])
    | .fail st dm _ =>
      (⟨st.getD 500, [("error", JVal.s (dm.getD "Payment completion failed"))]⟩, [call])

/-- The full `POST /api/complete` route of part_000. -/
def serveComplete : Env → Upstream → Request → Response × List Call :=
  route authenticate (fun e up _ req => completeHandler e up req)

/-- part_000 defines no `GET /api/payment/:paymentId` route: such a request falls
through every route to the 404 handler and provokes no upstream call. -/
def servePayment (_e : Env) (_up : Upstream) (_req : Request) : Response × List Call :=
  (notFound, [])

/-- The `GET /api/health` endpoint of part_000 (no `environment` field). -/
def healthResp (e : Env) : Response :=
  ⟨200, [("status", JVal.s "operational"), ("version", JVal.s "1.0.0"),
    ("timestamp", JVal.s e.now)]⟩

/-- The error-handling middleware of part_000: the `message` field is
`undefined` outside development mode and is then dropped by serialization. -/
def errorMw (e : Env) (errMessage : String) : Response :=
  ⟨500, ("error", JVal.s "Internal server error") ::
    (if e.nodeEnv = some "development" then [("message", JVal.s errMessage)] else [])⟩

/-- Startup validation of part_000: two explicit throws on falsy values. -/
def startupThrows (p : ProcEnv) : Bool :=
  jsFalsyStr p.PI_API_KEY || jsFalsyStr p.FRONTEND_URL

end P0

/-- Sample identity data returned by the sample upstream `/me` endpoint. -/
def sampleMeData : MeData := ⟨some "u1", some "alice", none⟩

/-- Sample upstream where every call succeeds with fully populated data. -/
def sampleUp : Upstream where
  me := fun _ => .ok sampleMeData
  balance := fun _ => .ok ⟨some (JVal.n 5), some (JVal.n 2)⟩
  approvePayment := fun _ => .ok ⟨some (JVal.s "approved"), some (JVal.n 7), some (JVal.s "memo")⟩
  completePayment := fun _ _ => .ok ⟨some (JVal.s "completed"), some ⟨some (JVal.s "tx"), some (JVal.b true)⟩⟩
  payment := fun _ => .ok ⟨some (JVal.s "p1"), some (JVal.n 7), some (JVal.s "done"), some (JVal.s "d"), none⟩

/-- Sample upstream whose balance call fails with upstream status 404. -/
def sampleUpBalFail : Upstream :=
  { sampleUp with balance := fun _ => .fail (some 404) (some "no account") "boom" }

/-- Sample upstream whose identity check fails with upstream status 403. -/
def sampleUpAuthFail : Upstream :=
  { sampleUp with me := fun _ => .fail (some 403) (some "token expired") "boom" }

/-- Sample upstream whose identity check succeeds without a uid. -/
def sampleUpNoUid : Upstream :=
  { sampleUp with me := fun _ => .ok ⟨none, some "alice", none⟩ }

/-- Sample environment. -/
def sampleEnv : Env := ⟨"KEY", "https://front.example", none, "2026-10-12T00:00:00.000Z"⟩

/-- Sample fully-populated authenticated request. -/
def sampleReq : Request :=
  ⟨some ("Bearer " ++ "abc"), some "attacker-uid", some "p1", some "tx1", "p9"⟩

/-- Sample request with no Authorization header. -/
def sampleReqNoAuth : Request := ⟨none, some "attacker-uid", some "p1", some "tx1", "p9"⟩

/-- Sample request using a non-Bearer scheme. -/
def sampleReqBasic : Request := ⟨some "Basic abc", none, some "p1", some "tx1", "p9"⟩

/-- Sample authenticated request whose body lacks paymentId and txid. -/
def sampleReqNoBody : Request := ⟨some ("Bearer " ++ "abc"), none, none, none, "p9"⟩

/-- Sample request whose bearer remainder holds a further space. -/
def sampleReqTwoSpaces : Request := ⟨some ("Bearer " ++ "a b"), none, none, none, "p9"⟩

/-- The identity the sample upstream yields for any token. -/
def sampleUser : Identity := ⟨"u1", some "alice", none⟩

/-- Success in the HTTP sense: a 2xx status. All success paths of the code emit
200 via `res.json`. -/
def isSuccessStatus (n : Nat) : Bool := 200 ≤ n && n < 300

/-- Whether a response body carries an `error` field. -/
def hasErrorField (r : Response) : Bool := (r.body.lookup "error").isSome

/-- The error-shape discipline of the spec: a response body carries an `error` field
exactly when the status is not a success status. -/
def errOk (r : Response) : Prop := hasErrorField r = !(isSuccessStatus r.status)

/-- Axios only throws for statuses outside the 2xx range (its default
`validateStatus`), so the status attached to a thrown error is never 2xx. -/
def AxiosResult.wfStatus {α : Type} : AxiosResult α → Prop
  | .ok _ => True
  | .fail st _ _ => ∀ s, st = some s → isSuccessStatus s = false

/-- Well-formed upstream: every failure outcome carries a non-2xx status, as
axios guarantees. -/
def Upstream.Wf (up : Upstream) : Prop :=
  (∀ t, (up.me t).wfStatus) ∧ (∀ uid, (up.balance uid).wfStatus) ∧
  (∀ pid, (up.approvePayment pid).wfStatus) ∧
  (∀ pid tx, (up.completePayment pid tx).wfStatus) ∧
  (∀ pid, (up.payment pid).wfStatus)

/-- A split never returns the empty list of groups. -/
theorem splitChars_ne_nil (l : List Char) : splitChars l ≠ [] := by
  cases l with
  | nil => simp [splitChars]
  | cons c cs => by_cases h : c = ' ' <;> simp [splitChars, h]

/-- The first group of a split is the sequence of characters before the first space. -/
theorem splitChars_headD (l : List Char) : (splitChars l).headD [] = upToSpace l := by
  induction l with
  | nil => simp [splitChars, upToSpace]
  | cons c cs ih =>
    by_cases h : c = ' '
    · simp [splitChars, upToSpace, h]
    · simp only [splitChars, upToSpace, if_neg h, List.headD_cons]
      rw [ih]

/-- Splitting after a space-free block peels that block off as the first group. -/
theorem splitChars_append_space (pre rest : List Char) (h : ∀ c ∈ pre, c ≠ ' ') :
    splitChars (pre ++ ' ' :: rest) = pre :: splitChars rest := by
  induction pre with
  | nil => simp [splitChars]
  | cons c cs ih =>
    have hc : c ≠ ' ' := h c (by simp)
    have ih2 := ih (fun d hd => h d (by simp [hd]))
    simp [splitChars, hc, ih2]

/-- A list is a `isPrefixOf` witness of itself followed by anything. -/
theorem isPrefixOf_append_self (l₁ l₂ : List Char) : l₁.isPrefixOf (l₁ ++ l₂) = true := by
  induction l₁ with
  | nil => simp [List.isPrefixOf]
  | cons c cs ih => simp [List.isPrefixOf, ih]

/-- Any header of the form `Bearer ...` passes the scheme check. -/
theorem strStarts_bearer (rest : String) : strStarts ("Bearer " ++ rest) "Bearer " = true := by
  rw [strStarts, String.data_append]
  have h : ("Bearer " : String).data = ['B','e','a','r','e','r',' '] := rfl
  rw [h]
  exact isPrefixOf_append_self _ _

/-- The extracted token of a `Bearer `-prefixed header is the remainder up to the
next space. -/
theorem token_of_bearer (rest : String) :
    (jsSplitSpace ("Bearer " ++ rest)).getD 1 "" = String.mk (upToSpace rest.data) := by
  have hd : ("Bearer " ++ rest).data = ['B','e','a','r','e','r'] ++ ' ' :: rest.data := by
    rw [String.data_append]
    rfl
  rw [jsSplitSpace, hd, splitChars_append_space _ _ (by decide)]
  obtain ⟨g, gs, hg⟩ := List.exists_cons_of_ne_nil (splitChars_ne_nil rest.data)
  have hhead : g = upToSpace rest.data := by
    have := splitChars_headD rest.data
    rw [hg] at this
    simpa using this
  rw [hg]
  simp [hhead]

/-- Unfolding a route whose authentication middleware denied the request. -/
theorem route_denied {auth handler e up req r tr}
    (h : auth e up req = (AuthResult.denied r, tr)) :
    route auth handler e up req = (r, tr) := by
  simp [route, h]

/-- Unfolding a route whose authentication middleware granted the request. -/
theorem route_granted {auth handler e up req u tr}
    (h : auth e up req = (AuthResult.granted u, tr)) :
    route auth handler e up req =
      ((handler e up u req).1, tr ++ (handler e up u req).2) := by
  simp [route, h]

/-- Normal form of the src/server.js middleware on a well-formed bearer header. -/
theorem S.authenticate_some_bearer (e : Env) (up : Upstream) (req : Request) (a : String)
    (ha : req.authorization = some a) (hb : strStarts a "Bearer " = true) :
    S.authenticate e up req =
      (S.afterMe e (up.me (reqToken req)),
       [Call.me (S.piApiUrl e ++ "/me") ("Bearer " ++ reqToken req)]) := by
  simp [S.authenticate, reqToken, ha, hb]

/-- Normal form of the part_000 middleware on a well-formed bearer header. -/
theorem P0.authenticate_some_bearer_p0 (e : Env) (up : Upstream) (req : Request) (a : String)
    (ha : req.authorization = some a) (hb : strStarts a "Bearer " = true) :
    P0.authenticate e up req =
      (P0.afterMe (up.me (reqToken req)),
       [Call.me (P0.piApiUrl ++ "/me") ("Bearer " ++ reqToken req)]) := by
  simp [P0.authenticate, reqToken, ha, hb]

/-- Both middlewares deny a request whose header is missing or not
Bearer-prefixed, locally and without any upstream call. -/
theorem authenticate_missing_denied (e : Env) (up : Upstream) (req : Request)
    (h : req.authorization = none ∨
      ∃ a, req.authorization = some a ∧ strStarts a "Bearer " = false) :
    S.authenticate e up req = (AuthResult.denied missingCred, []) ∧
    P0.authenticate e up req = (AuthResult.denied missingCred, []) := by
  rcases h with h | ⟨a, ha, hb⟩
  · exact ⟨by simp [S.authenticate, h], by simp [P0.authenticate, h]⟩
  · exact ⟨by simp [S.authenticate, ha, hb], by simp [P0.authenticate, ha, hb]⟩

/-- Inversion of a granted src/server.js authentication: the header was
Bearer-prefixed, the upstream identity check succeeded with a truthy uid, the
attached identity copies the upstream fields, and the trace is exactly the one
identity-verification call. -/
theorem S.authenticate_granted_inv (e : Env) (up : Upstream) (req : Request)
    (u : Identity) (tr : List Call)
    (hg : S.authenticate e up req = (AuthResult.granted u, tr)) :
    ∃ a d, req.authorization = some a ∧ strStarts a "Bearer " = true ∧
      up.me (reqToken req) = AxiosResult.ok d ∧ jsFalsyStr d.uid = false ∧
      u = ⟨d.uid.getD "", d.username, d.wallet_address⟩ ∧
      tr = [Call.me (S.piApiUrl e ++ "/me") ("Bearer " ++ reqToken req)] := by
  rcases hreq : req.authorization with _ | a
  · simp [S.authenticate, hreq] at hg
  · by_cases hb : strStarts a "Bearer " = true
    · rw [S.authenticate_some_bearer e up req a hreq hb] at hg
      rcases hme : up.me (reqToken req) with d | ⟨st, dm, m⟩
      · rw [hme] at hg
        cases hf : jsFalsyStr d.uid with
        | true => simp [S.afterMe, hf] at hg
        | false =>
          simp only [S.afterMe, hf, Bool.false_eq_true, if_false, Prod.mk.injEq,
            AuthResult.granted.injEq] at hg
          exact ⟨a, d, rfl, hb, rfl, hf, hg.1.symm, hg.2.symm⟩
      · rw [hme] at hg
        simp [S.afterMe] at hg
    · simp [S.authenticate, hreq, hb] at hg

/-- A src/server.js grant transfers to part_000: the middlewares share their
success path, only the me-call URL in the trace differs. -/
theorem P0.authenticate_granted_of_S (e : Env) (up : Upstream) (req : Request)
    (u : Identity) (tr : List Call)
    (hg : S.authenticate e up req = (AuthResult.granted u, tr)) :
    P0.authenticate e up req =
      (AuthResult.granted u,
       [Call.me (P0.piApiUrl ++ "/me") ("Bearer " ++ reqToken req)]) := by
  obtain ⟨a, d, hreq, hb, hme, hf, hu, _⟩ := S.authenticate_granted_inv e up req u tr hg
  rw [P0.authenticate_some_bearer_p0 e up req a hreq hb, hme]
  simp [P0.afterMe, hf, hu]

/-- src/server.js authentication outcome when the upstream identity call throws. -/
theorem S.authenticate_me_fail (e : Env) (up : Upstream) (req : Request) (a : String)
    (st : Option Nat) (dm : Option String) (m : String)
    (ha : req.authorization = some a) (hb : strStarts a "Bearer " = true)
    (hme : up.me (reqToken req) = AxiosResult.fail st dm m) :
    S.authenticate e up req =
      (AuthResult.denied ⟨st.getD 500, S.authFailBody e m⟩,
       [Call.me (S.piApiUrl e ++ "/me") ("Bearer " ++ reqToken req)]) := by
  rw [S.authenticate_some_bearer e up req a ha hb, hme]
  rfl

/-- part_000 authentication outcome when the upstream identity call throws. -/
theorem P0.authenticate_me_fail_p0 (e : Env) (up : Upstream) (req : Request) (a : String)
    (st : Option Nat) (dm : Option String) (m : String)
    (ha : req.authorization = some a) (hb : strStarts a "Bearer " = true)
    (hme : up.me (reqToken req) = AxiosResult.fail st dm m) :
    P0.authenticate e up req =
      (AuthResult.denied ⟨st.getD 500, [("error", JVal.s (dm.getD "Authentication failed"))]⟩,
       [Call.me (P0.piApiUrl ++ "/me") ("Bearer " ++ reqToken req)]) := by
  rw [P0.authenticate_some_bearer_p0 e up req a ha hb, hme]
  rfl

/-- src/server.js authentication outcome when the identity data has no truthy uid. -/
theorem S.authenticate_no_uid (e : Env) (up : Upstream) (req : Request) (a : String)
    (d : MeData) (ha : req.authorization = some a) (hb : strStarts a "Bearer " = true)
    (hme : up.me (reqToken req) = AxiosResult.ok d) (hf : jsFalsyStr d.uid = true) :
    S.authenticate e up req =
      (AuthResult.denied invalidTok,
       [Call.me (S.piApiUrl e ++ "/me") ("Bearer " ++ reqToken req)]) := by
  rw [S.authenticate_some_bearer e up req a ha hb, hme]
  simp [S.afterMe, hf]

/-- part_000 authentication outcome when the identity data has no truthy uid. -/
theorem P0.authenticate_no_uid_p0 (e : Env) (up : Upstream) (req : Request) (a : String)
    (d : MeData) (ha : req.authorization = some a) (hb : strStarts a "Bearer " = true)
    (hme : up.me (reqToken req) = AxiosResult.ok d) (hf : jsFalsyStr d.uid = true) :
    P0.authenticate e up req =
      (AuthResult.denied invalidTok,
       [Call.me (P0.piApiUrl ++ "/me") ("Bearer " ++ reqToken req)]) := by
  rw [P0.authenticate_some_bearer_p0 e up req a ha hb, hme]
  simp [P0.afterMe, hf]

/-- A trace consisting of one identity-verification call holds no operation call. -/
theorem noOps_me (url authz : String) : noOps [Call.me url authz] := by
  simp [noOps, Call.isOp]

/-- The balance operation of src/server.js always issues exactly the one balance
call for the attached identity, whatever the upstream answers. -/
theorem S.balanceHandler_trace (e : Env) (up : Upstream) (u : Identity) :
    (S.balanceHandler e up u).2 =
      [Call.op (S.piApiUrl e ++ "/accounts/" ++ u.uid ++ "/balance") ("Key " ++ e.piApiKey)] := by
  cases hba : up.balance u.uid <;> simp [S.balanceHandler, hba]

/-- C1: for every verified GET /api/balance request, the uid interpolated into
the upstream balance URL `accounts/{uid}/balance` is exactly the uid field of
the Identity built from the upstream identity check for that request, and the
only operation call the request provokes is that one; no caller-supplied value
(header, body, query or path) enters the uid. -/
theorem c1_balance_uid_from_verifier (e : Env) (up : Upstream) (req : Request)
    (u : Identity) (tr : List Call)
    (hg : S.authenticate e up req = (AuthResult.granted u, tr)) :
    (∃ d, up.me (reqToken req) = AxiosResult.ok d ∧ d.uid = some u.uid) ∧
    (S.serveBalance e up req).2.filter Call.isOp =
      [Call.op (S.piApiUrl e ++ "/accounts/" ++ u.uid ++ "/balance") ("Key " ++ e.piApiKey)] := by
  obtain ⟨a, d, hreq, hb, hme, hf, hu, htr⟩ := S.authenticate_granted_inv e up req u tr hg
  constructor
  · refine ⟨d, hme, ?_⟩
    rcases hd : d.uid with _ | s
    · rw [hd] at hf
      simp [jsFalsyStr] at hf
    · rw [hu]
      simp [hd]
  · show (route S.authenticate (fun e up u _ => S.balanceHandler e up u) e up req).2.filter Call.isOp = _
    rw [route_granted hg, htr]
    simp [S.balanceHandler_trace, Call.isOp]

/-- C1 witness: a concrete verified request, its identity, and the balance call. -/
theorem c1_witness :
    S.authenticate sampleEnv sampleUp sampleReq =
      (AuthResult.granted sampleUser,
       [Call.me (S.piApiUrl sampleEnv ++ "/me") ("Bearer " ++ "abc")]) ∧
    ((∃ d, sampleUp.me (reqToken sampleReq) = AxiosResult.ok d ∧ d.uid = some sampleUser.uid) ∧
      (S.serveBalance sampleEnv sampleUp sampleReq).2.filter Call.isOp =
        [Call.op (S.piApiUrl sampleEnv ++ "/accounts/" ++ sampleUser.uid ++ "/balance")
          ("Key " ++ sampleEnv.piApiKey)]) :=
  ⟨by decide, c1_balance_uid_from_verifier sampleEnv sampleUp sampleReq sampleUser
    [Call.me (S.piApiUrl sampleEnv ++ "/me") ("Bearer " ++ "abc")] (by decide)⟩

/-- C2: every request to a protected route whose Authorization header is absent
or not Bearer-prefixed receives 401 with the fixed missing-credential error body
and provokes no upstream call at all, in both variants (the payment-details
route exists only in src/server.js). -/
theorem c2_missing_bearer_401 (e : Env) (up : Upstream) (req : Request)
    (h : req.authorization = none ∨
      ∃ a, req.authorization = some a ∧ strStarts a "Bearer " = false) :
    S.serveBalance e up req = (⟨401, [("error", JVal.s "Authorization header required")]⟩, []) ∧
    S.serveApprove e up req = (⟨401, [("error", JVal.s "Authorization header required")]⟩, []) ∧
    S.serveComplete e up req = (⟨401, [("error", JVal.s "Authorization header required")]⟩, []) ∧
    S.servePayment e up req = (⟨401, [("error", JVal.s "Authorization header required")]⟩, []) ∧
    P0.serveBalance e up req = (⟨401, [("error", JVal.s "Authorization header required")]⟩, []) ∧
    P0.serveApprove e up req = (⟨401, [("error", JVal.s "Authorization header required")]⟩, []) ∧
    P0.serveComplete e up req = (⟨401, [("error", JVal.s "Authorization header required")]⟩, []) := by
  obtain ⟨hS, hP⟩ := authenticate_missing_denied e up req h
  exact ⟨route_denied hS, route_denied hS, route_denied hS, route_denied hS,
    route_denied hP, route_denied hP, route_denied hP⟩

/-- C2 witness: the concrete request with no Authorization header. -/
theorem c2_witness :
    sampleReqNoAuth.authorization = none ∧
    (S.serveBalance sampleEnv sampleUp sampleReqNoAuth =
        (⟨401, [("error", JVal.s "Authorization header required")]⟩, []) ∧
      S.serveApprove sampleEnv sampleUp sampleReqNoAuth =
        (⟨401, [("error", JVal.s "Authorization header required")]⟩, []) ∧
      S.serveComplete sampleEnv sampleUp sampleReqNoAuth =
        (⟨401, [("error", JVal.s "Authorization header required")]⟩, []) ∧
      S.servePayment sampleEnv sampleUp sampleReqNoAuth =
        (⟨401, [("error", JVal.s "Authorization header required")]⟩, []) ∧
      P0.serveBalance sampleEnv sampleUp sampleReqNoAuth =
        (⟨401, [("error", JVal.s "Authorization header required")]⟩, []) ∧
      P0.serveApprove sampleEnv sampleUp sampleReqNoAuth =
        (⟨401, [("error", JVal.s "Authorization header required")]⟩, []) ∧
      P0.serveComplete sampleEnv sampleUp sampleReqNoAuth =
        (⟨401, [("error", JVal.s "Authorization header required")]⟩, [])) :=
  ⟨rfl, c2_missing_bearer_401 sampleEnv sampleUp sampleReqNoAuth (Or.inl rfl)⟩

/-- C9: for every Authorization header beginning with the seven characters of
the Bearer prefix, including the bare prefix with empty remainder and remainders
holding further spaces, the scheme check passes and both middlewares issue the
upstream identity call carrying as token the text of the header between its
first and second space, rather than rejecting locally. -/
theorem c9_token_extraction (e : Env) (up : Upstream) (req : Request) (rest : String)
    (ha : req.authorization = some ("Bearer " ++ rest)) :
    reqToken req = String.mk (upToSpace rest.data) ∧
    (S.authenticate e up req).2 =
      [Call.me (S.piApiUrl e ++ "/me") ("Bearer " ++ String.mk (upToSpace rest.data))] ∧
    (P0.authenticate e up req).2 =
      [Call.me (P0.piApiUrl ++ "/me") ("Bearer " ++ String.mk (upToSpace rest.data))] := by
  have htok : reqToken req = String.mk (upToSpace rest.data) := by
    simp only [reqToken, ha]
    exact token_of_bearer rest
  have hb := strStarts_bearer rest
  have hS := S.authenticate_some_bearer e up req _ ha hb
  have hP := P0.authenticate_some_bearer_p0 e up req _ ha hb
  refine ⟨htok, ?_, ?_⟩
  · rw [hS, htok]
  · rw [hP, htok]

/-- C9 witness: a header whose remainder has a further space; the token sent
upstream is the truncated text before it, not rejected locally. -/
theorem c9_witness :
    sampleReqTwoSpaces.authorization = some ("Bearer " ++ "a b") ∧
    (reqToken sampleReqTwoSpaces = String.mk (upToSpace ("a b" : String).data) ∧
      (S.authenticate sampleEnv sampleUp sampleReqTwoSpaces).2 =
        [Call.me (S.piApiUrl sampleEnv ++ "/me")
          ("Bearer " ++ String.mk (upToSpace ("a b" : String).data))] ∧
      (P0.authenticate sampleEnv sampleUp sampleReqTwoSpaces).2 =
        [Call.me (P0.piApiUrl ++ "/me")
          ("Bearer " ++ String.mk (upToSpace ("a b" : String).data))]) :=
  ⟨rfl, c9_token_extraction sampleEnv sampleUp sampleReqTwoSpaces "a b" rfl⟩

/-- C3: for a bearer request whose upstream identity check throws, every
protected route of both variants answers with the upstream status when present
and 500 otherwise, and issues no operation-specific call; when the check
succeeds without a truthy uid, the routes answer 401, again with no operation
call (part_000 serves no payment-details route). -/
theorem c3_rejected_identity (e : Env) (up : Upstream) (req : Request) (a : String)
    (ha : req.authorization = some a) (hb : strStarts a "Bearer " = true) :
    (∀ st dm m, up.me (reqToken req) = AxiosResult.fail st dm m →
      ((S.serveBalance e up req).1.status = st.getD 500 ∧ noOps (S.serveBalance e up req).2) ∧
      ((S.serveApprove e up req).1.status = st.getD 500 ∧ noOps (S.serveApprove e up req).2) ∧
      ((S.serveComplete e up req).1.status = st.getD 500 ∧ noOps (S.serveComplete e up req).2) ∧
      ((S.servePayment e up req).1.status = st.getD 500 ∧ noOps (S.servePayment e up req).2) ∧
      ((P0.serveBalance e up req).1.status = st.getD 500 ∧ noOps (P0.serveBalance e up req).2) ∧
      ((P0.serveApprove e up req).1.status = st.getD 500 ∧ noOps (P0.serveApprove e up req).2) ∧
      ((P0.serveComplete e up req).1.status = st.getD 500 ∧ noOps (P0.serveComplete e up req).2)) ∧
    (∀ d, up.me (reqToken req) = AxiosResult.ok d → jsFalsyStr d.uid = true →
      ((S.serveBalance e up req).1.status = 401 ∧ noOps (S.serveBalance e up req).2) ∧
      ((S.serveApprove e up req).1.status = 401 ∧ noOps (S.serveApprove e up req).2) ∧
      ((S.serveComplete e up req).1.status = 401 ∧ noOps (S.serveComplete e up req).2) ∧
      ((S.servePayment e up req).1.status = 401 ∧ noOps (S.servePayment e up req).2) ∧
      ((P0.serveBalance e up req).1.status = 401 ∧ noOps (P0.serveBalance e up req).2) ∧
      ((P0.serveApprove e up req).1.status = 401 ∧ noOps (P0.serveApprove e up req).2) ∧
      ((P0.serveComplete e up req).1.status = 401 ∧ noOps (P0.serveComplete e up req).2)) := by
  constructor
  · intro st dm m hme
    have hS := S.authenticate_me_fail e up req a st dm m ha hb hme
    have hP := P0.authenticate_me_fail_p0 e up req a st dm m ha hb hme
    have hSb : S.serveBalance e up req = _ := route_denied hS
    have hSa : S.serveApprove e up req = _ := route_denied hS
    have hSc : S.serveComplete e up req = _ := route_denied hS
    have hSp : S.servePayment e up req = _ := route_denied hS
    have hPb : P0.serveBalance e up req = _ := route_denied hP
    have hPa : P0.serveApprove e up req = _ := route_denied hP
    have hPc : P0.serveComplete e up req = _ := route_denied hP
    rw [hSb, hSa, hSc, hSp, hPb, hPa, hPc]
    exact ⟨⟨rfl, noOps_me _ _⟩, ⟨rfl, noOps_me _ _⟩, ⟨rfl, noOps_me _ _⟩, ⟨rfl, noOps_me _ _⟩,
      ⟨rfl, noOps_me _ _⟩, ⟨rfl, noOps_me _ _⟩, ⟨rfl, noOps_me _ _⟩⟩
  · intro d hme hf
    have hS := S.authenticate_no_uid e up req a d ha hb hme hf
    have hP := P0.authenticate_no_uid_p0 e up req a d ha hb hme hf
    have hSb : S.serveBalance e up req = _ := route_denied hS
    have hSa : S.serveApprove e up req = _ := route_denied hS
    have hSc : S.serveComplete e up req = _ := route_denied hS
    have hSp : S.servePayment e up req = _ := route_denied hS
    have hPb : P0.serveBalance e up req = _ := route_denied hP
    have hPa : P0.serveApprove e up req = _ := route_denied hP
    have hPc : P0.serveComplete e up req = _ := route_denied hP
    rw [hSb, hSa, hSc, hSp, hPb, hPa, hPc]
    exact ⟨⟨rfl, noOps_me _ _⟩, ⟨rfl, noOps_me _ _⟩, ⟨rfl, noOps_me _ _⟩, ⟨rfl, noOps_me _ _⟩,
      ⟨rfl, noOps_me _ _⟩, ⟨rfl, noOps_me _ _⟩, ⟨rfl, noOps_me _ _⟩⟩

/-- C3 witness: with an upstream identity check failing at status 403, the
balance route of both variants answers 403 and issues no operation call. -/
theorem c3_witness :
    sampleReq.authorization = some ("Bearer " ++ "abc") ∧
    strStarts ("Bearer " ++ "abc") "Bearer " = true ∧
    sampleUpAuthFail.me (reqToken sampleReq) =
      AxiosResult.fail (some 403) (some "token expired") "boom" ∧
    (S.serveBalance sampleEnv sampleUpAuthFail sampleReq).1.status = 403 ∧
    noOps (S.serveBalance sampleEnv sampleUpAuthFail sampleReq).2 ∧
    (P0.serveBalance sampleEnv sampleUpAuthFail sampleReq).1.status = 403 ∧
    noOps (P0.serveBalance sampleEnv sampleUpAuthFail sampleReq).2 := by
  have h := c3_rejected_identity sampleEnv sampleUpAuthFail sampleReq ("Bearer " ++ "abc")
    rfl (by decide)
  have hfail := h.1 (some 403) (some "token expired") "boom" rfl
  exact ⟨rfl, by decide, rfl, hfail.1.1, hfail.1.2, hfail.2.2.2.2.1.1, hfail.2.2.2.2.1.2⟩

/-- C4: once authenticated, an approve request whose body lacks paymentId and a
complete request whose body lacks paymentId or txid receive exactly status 400
with the local invalid-input message, and no operation-specific upstream call is
ever issued, in both variants. -/
theorem c4_validation_before_upstream (e : Env) (up : Upstream) (req : Request)
    (u : Identity) (tr : List Call)
    (hg : S.authenticate e up req = (AuthResult.granted u, tr)) :
    (req.bodyPaymentId = none →
      (S.serveApprove e up req).1 = ⟨400, [("error", JVal.s "Missing payment ID")]⟩ ∧
      noOps (S.serveApprove e up req).2 ∧
      (P0.serveApprove e up req).1 = ⟨400, [("error", JVal.s "Invalid payment ID")]⟩ ∧
      noOps (P0.serveApprove e up req).2) ∧
    (req.bodyPaymentId = none ∨ req.bodyTxid = none →
      (S.serveComplete e up req).1 =
        ⟨400, [("error", JVal.s "Missing payment ID or transaction ID")]⟩ ∧
      noOps (S.serveComplete e up req).2 ∧
      (P0.serveComplete e up req).1 =
        ⟨400, [("error", JVal.s "Missing payment ID or transaction ID")]⟩ ∧
      noOps (P0.serveComplete e up req).2) := by
  obtain ⟨a, d, hreq, hb, hme, hf, hu, htr⟩ := S.authenticate_granted_inv e up req u tr hg
  have hgP := P0.authenticate_granted_of_S e up req u tr hg
  have hSr : S.serveApprove e up req = _ := route_granted hg
  have hPr : P0.serveApprove e up req = _ := route_granted hgP
  have hSc : S.serveComplete e up req = _ := route_granted hg
  have hPc : P0.serveComplete e up req = _ := route_granted hgP
  constructor
  · intro hpid
    rw [hSr, hPr, htr]
    simp [S.approveHandler, P0.approveHandler, hpid, jsFalsyStr, noOps, Call.isOp]
  · intro hmiss
    rw [hSc, hPc, htr]
    rcases hmiss with hpid | htx
    · simp [S.completeHandler, P0.completeHandler, hpid, jsFalsyStr, noOps, Call.isOp]
    · simp [S.completeHandler, P0.completeHandler, htx, jsFalsyStr, noOps, Call.isOp]

/-- C4 witness: a concrete authenticated request with an empty body is rejected
locally by both variants. -/
theorem c4_witness :
    S.authenticate sampleEnv sampleUp sampleReqNoBody =
      (AuthResult.granted sampleUser,
       [Call.me (S.piApiUrl sampleEnv ++ "/me") ("Bearer " ++ "abc")]) ∧
    sampleReqNoBody.bodyPaymentId = none ∧
    ((S.serveApprove sampleEnv sampleUp sampleReqNoBody).1 =
        ⟨400, [("error", JVal.s "Missing payment ID")]⟩ ∧
      noOps (S.serveApprove sampleEnv sampleUp sampleReqNoBody).2 ∧
      (P0.serveApprove sampleEnv sampleUp sampleReqNoBody).1 =
        ⟨400, [("error", JVal.s "Invalid payment ID")]⟩ ∧
      noOps (P0.serveApprove sampleEnv sampleUp sampleReqNoBody).2) ∧
    ((S.serveComplete sampleEnv sampleUp sampleReqNoBody).1 =
        ⟨400, [("error", JVal.s "Missing payment ID or transaction ID")]⟩ ∧
      noOps (S.serveComplete sampleEnv sampleUp sampleReqNoBody).2 ∧
      (P0.serveComplete sampleEnv sampleUp sampleReqNoBody).1 =
        ⟨400, [("error", JVal.s "Missing payment ID or transaction ID")]⟩ ∧
      noOps (P0.serveComplete sampleEnv sampleUp sampleReqNoBody).2) := by
  have h := c4_validation_before_upstream sampleEnv sampleUp sampleReqNoBody sampleUser
    [Call.me (S.piApiUrl sampleEnv ++ "/me") ("Bearer " ++ "abc")] (by decide)
  exact ⟨by decide, rfl, h.1 rfl, h.2 (Or.inl rfl)⟩

/-- Lookup passes over an optional entry with a different key. -/
theorem lookup_optEntry_ne (key k : String) (o : Option JVal) (rest : Body)
    (h : (key == k) = false) :
    (optEntry k o ++ rest).lookup key = rest.lookup key := by
  cases o <;> simp [optEntry, List.lookup, h]

/-- C7: for every authenticated approve request whose upstream approval call
succeeds, both variants answer 200 with a `payment_id` field equal to the
`paymentId` supplied in the request body. -/
theorem c7_approve_roundtrip (e : Env) (up : Upstream) (req : Request)
    (u : Identity) (tr : List Call) (pid : String) (ad : ApproveData)
    (hg : S.authenticate e up req = (AuthResult.granted u, tr))
    (hpid : req.bodyPaymentId = some pid) (hne : pid ≠ "")
    (hap : up.approvePayment pid = AxiosResult.ok ad) :
    (S.serveApprove e up req).1.status = 200 ∧
    (S.serveApprove e up req).1.body.lookup "payment_id" = some (JVal.s pid) ∧
    (P0.serveApprove e up req).1.status = 200 ∧
    (P0.serveApprove e up req).1.body.lookup "payment_id" = some (JVal.s pid) := by
  have hgP := P0.authenticate_granted_of_S e up req u tr hg
  have hS : S.serveApprove e up req = _ := route_granted hg
  have hP : P0.serveApprove e up req = _ := route_granted hgP
  rw [hS, hP]
  have hfal : jsFalsyStr (some pid) = false := by
    simp [jsFalsyStr, hne]
  simp only [S.approveHandler, P0.approveHandler, hpid, hfal, Bool.false_eq_true, if_false,
    Option.getD_some, hap]
  have hks : (("payment_id" : String) == "status") = false := by decide
  refine ⟨trivial, ?_, trivial, ?_⟩ <;>
    simp [lookup_optEntry_ne _ _ _ _ hks, List.lookup]

/-- C7 witness: the concrete round trip at paymentId p1. -/
theorem c7_witness :
    S.authenticate sampleEnv sampleUp sampleReq =
      (AuthResult.granted sampleUser,
       [Call.me (S.piApiUrl sampleEnv ++ "/me") ("Bearer " ++ "abc")]) ∧
    sampleReq.bodyPaymentId = some "p1" ∧
    ("p1" : String) ≠ "" ∧
    ((S.serveApprove sampleEnv sampleUp sampleReq).1.status = 200 ∧
      (S.serveApprove sampleEnv sampleUp sampleReq).1.body.lookup "payment_id" =
        some (JVal.s "p1") ∧
      (P0.serveApprove sampleEnv sampleUp sampleReq).1.status = 200 ∧
      (P0.serveApprove sampleEnv sampleUp sampleReq).1.body.lookup "payment_id" =
        some (JVal.s "p1")) :=
  ⟨by decide, rfl, by decide,
    c7_approve_roundtrip sampleEnv sampleUp sampleReq sampleUser
      [Call.me (S.piApiUrl sampleEnv ++ "/me") ("Bearer " ++ "abc")] "p1"
      ⟨some (JVal.s "approved"), some (JVal.n 7), some (JVal.s "memo")⟩
      (by decide) rfl (by decide) rfl⟩

/-- C5 counterexample: a process environment carrying the API key and the
frontend origin but no PORT and no NODE_ENV passes the startup validation of
both variants, so a configuration missing the listening port or the environment
flag does not prevent startup, contrary to the claim. -/
theorem c5_counterexample :
    (ProcEnv.mk (some "k") (some "https://front.example") none none).PORT = none ∧
    (ProcEnv.mk (some "k") (some "https://front.example") none none).NODE_ENV = none ∧
    S.startupThrows (ProcEnv.mk (some "k") (some "https://front.example") none none) = false ∧
    P0.startupThrows (ProcEnv.mk (some "k") (some "https://front.example") none none) = false :=
  ⟨rfl, rfl, by decide, by decide⟩

/-- C5 amended: startup fails exactly when the service API key or the allowed
browser origin is missing or empty; a missing listening port or environment flag
is not checked and does not prevent startup, in either variant. -/
theorem c5_amended_startup_gate (p : ProcEnv) :
    (S.startupThrows p = false ↔
      jsFalsyStr p.PI_API_KEY = false ∧ jsFalsyStr p.FRONTEND_URL = false) ∧
    (P0.startupThrows p = false ↔
      jsFalsyStr p.PI_API_KEY = false ∧ jsFalsyStr p.FRONTEND_URL = false) := by
  constructor <;>
    simp [S.startupThrows, P0.startupThrows, S.requiredEnvVars, S.lookupEnvVar]

/-- C6 counterexample: in the part_000 variant a successful balance response
keeps the upstream field names, `available_balance` and `locked_balance`, so its
body does not have the claimed shape with `available` and `locked`. -/
theorem c6_counterexample :
    (P0.serveBalance sampleEnv sampleUp sampleReq).1.status = 200 ∧
    (P0.serveBalance sampleEnv sampleUp sampleReq).1.body.map Prod.fst =
      ["available_balance", "locked_balance", "currency", "last_updated"] ∧
    ((P0.serveBalance sampleEnv sampleUp sampleReq).1.body.lookup "available").isNone = true :=
  ⟨by decide, by decide, by decide⟩

/-- C6 amended: in src/server.js every successful balance response has exactly
the shape available, locked, currency "PI", last_updated, with available and
locked copied 1:1 from the upstream fields available_balance and locked_balance,
and the upstream target for a verified uid u is accounts/u/balance; the part_000
variant instead emits the unchanged upstream field names available_balance and
locked_balance (same target, same currency and timestamp fields). -/
theorem c6_amended_balance_shape (e : Env) (up : Upstream) (req : Request)
    (u : Identity) (tr : List Call) (bd : BalanceData) (av lk : JVal)
    (hg : S.authenticate e up req = (AuthResult.granted u, tr))
    (hbal : up.balance u.uid = AxiosResult.ok bd)
    (hav : bd.available_balance = some av) (hlk : bd.locked_balance = some lk) :
    S.serveBalance e up req =
      (⟨200, [("available", av), ("locked", lk), ("currency", JVal.s "PI"),
        ("last_updated", JVal.s e.now)]⟩,
       tr ++ [Call.op (S.piApiUrl e ++ "/accounts/" ++ u.uid ++ "/balance")
         ("Key " ++ e.piApiKey)]) ∧
    P0.serveBalance e up req =
      (⟨200, [("available_balance", av), ("locked_balance", lk), ("currency", JVal.s "PI"),
        ("last_updated", JVal.s e.now)]⟩,
       [Call.me (P0.piApiUrl ++ "/me") ("Bearer " ++ reqToken req),
        Call.op (P0.piApiUrl ++ "/accounts/" ++ u.uid ++ "/balance")
          ("Key " ++ e.piApiKey)]) := by
  have hgP := P0.authenticate_granted_of_S e up req u tr hg
  have hS : S.serveBalance e up req = _ := route_granted hg
  have hP : P0.serveBalance e up req = _ := route_granted hgP
  rw [hS, hP]
  simp [S.balanceHandler, P0.balanceHandler, hbal, hav, hlk, optEntry]

/-- C6 amended witness: the concrete verified balance request. -/
theorem c6_witness :
    S.authenticate sampleEnv sampleUp sampleReq =
      (AuthResult.granted sampleUser,
       [Call.me (S.piApiUrl sampleEnv ++ "/me") ("Bearer " ++ "abc")]) ∧
    sampleUp.balance sampleUser.uid =
      AxiosResult.ok ⟨some (JVal.n 5), some (JVal.n 2)⟩ ∧
    (S.serveBalance sampleEnv sampleUp sampleReq =
      (⟨200, [("available", JVal.n 5), ("locked", JVal.n 2), ("currency", JVal.s "PI"),
        ("last_updated", JVal.s sampleEnv.now)]⟩,
       [Call.me (S.piApiUrl sampleEnv ++ "/me") ("Bearer " ++ "abc")] ++
         [Call.op (S.piApiUrl sampleEnv ++ "/accounts/" ++ sampleUser.uid ++ "/balance")
           ("Key " ++ sampleEnv.piApiKey)]) ∧
    P0.serveBalance sampleEnv sampleUp sampleReq =
      (⟨200, [("available_balance", JVal.n 5), ("locked_balance", JVal.n 2),
        ("currency", JVal.s "PI"), ("last_updated", JVal.s sampleEnv.now)]⟩,
       [Call.me (P0.piApiUrl ++ "/me") ("Bearer " ++ reqToken sampleReq),
        Call.op (P0.piApiUrl ++ "/accounts/" ++ sampleUser.uid ++ "/balance")
          ("Key " ++ sampleEnv.piApiKey)])) :=
  ⟨by decide, rfl,
    c6_amended_balance_shape sampleEnv sampleUp sampleReq sampleUser
      [Call.me (S.piApiUrl sampleEnv ++ "/me") ("Bearer " ++ "abc")]
      ⟨some (JVal.n 5), some (JVal.n 2)⟩ (JVal.n 5) (JVal.n 2)
      (by decide) rfl rfl rfl⟩

/-- Pair equality of denied middleware outcomes gives response equality. -/
theorem denied_eq_resp {r₁ r₂ : Response} {t₁ t₂ : List Call}
    (h : ((AuthResult.denied r₁, t₁) : AuthResult × List Call) = (AuthResult.denied r₂, t₂)) :
    r₁ = r₂ := by
  injection h with h1 h2
  injection h1

/-- A response whose body starts with an error field and whose status is not
2xx satisfies the error-shape discipline. -/
theorem errOk_errorCons (n : Nat) (v : JVal) (rest : Body) (h : isSuccessStatus n = false) :
    errOk ⟨n, ("error", v) :: rest⟩ := by
  simp [errOk, hasErrorField, List.lookup, h]

/-- A thrown-error status defaulted to 500 is never a success status. -/
theorem isSuccessStatus_getD (st : Option Nat)
    (h : ∀ s, st = some s → isSuccessStatus s = false) :
    isSuccessStatus (st.getD 500) = false := by
  cases st with
  | none => decide
  | some s => exact h s rfl

/-- Every denial of the src/server.js middleware satisfies the discipline. -/
theorem S.errOk_auth_denied (e : Env) (up : Upstream) (req : Request)
    (hwf : ∀ t, (up.me t).wfStatus) (r : Response) (tr : List Call)
    (h : S.authenticate e up req = (AuthResult.denied r, tr)) : errOk r := by
  rcases hreq : req.authorization with _ | a
  · rw [(authenticate_missing_denied e up req (Or.inl hreq)).1] at h
    rw [← denied_eq_resp h]
    exact errOk_errorCons _ _ _ (by decide)
  · by_cases hb : strStarts a "Bearer " = true
    · rcases hme : up.me (reqToken req) with d | ⟨st, dm, m⟩
      · by_cases hf : jsFalsyStr d.uid = true
        · rw [S.authenticate_no_uid e up req a d hreq hb hme hf] at h
          rw [← denied_eq_resp h]
          exact errOk_errorCons _ _ _ (by decide)
        · simp only [Bool.not_eq_true] at hf
          rw [S.authenticate_some_bearer e up req a hreq hb, hme] at h
          simp [S.afterMe, hf] at h
      · rw [S.authenticate_me_fail e up req a st dm m hreq hb hme] at h
        rw [← denied_eq_resp h]
        have hst : isSuccessStatus (st.getD 500) = false := by
          refine isSuccessStatus_getD st ?_
          have hw := hwf (reqToken req)
          rw [hme] at hw
          exact hw
        unfold S.authFailBody
        exact errOk_errorCons _ _ _ hst
    · simp only [Bool.not_eq_true] at hb
      rw [(authenticate_missing_denied e up req (Or.inr ⟨a, hreq, hb⟩)).1] at h
      rw [← denied_eq_resp h]
      exact errOk_errorCons _ _ _ (by decide)

/-- Every denial of the part_000 middleware satisfies the discipline. -/
theorem P0.errOk_auth_denied_p0 (e : Env) (up : Upstream) (req : Request)
    (hwf : ∀ t, (up.me t).wfStatus) (r : Response) (tr : List Call)
    (h : P0.authenticate e up req = (AuthResult.denied r, tr)) : errOk r := by
  rcases hreq : req.authorization with _ | a
  · rw [(authenticate_missing_denied e up req (Or.inl hreq)).2] at h
    rw [← denied_eq_resp h]
    exact errOk_errorCons _ _ _ (by decide)
  · by_cases hb : strStarts a "Bearer " = true
    · rcases hme : up.me (reqToken req) with d | ⟨st, dm, m⟩
      · by_cases hf : jsFalsyStr d.uid = true
        · rw [P0.authenticate_no_uid_p0 e up req a d hreq hb hme hf] at h
          rw [← denied_eq_resp h]
          exact errOk_errorCons _ _ _ (by decide)
        · simp only [Bool.not_eq_true] at hf
          rw [P0.authenticate_some_bearer_p0 e up req a hreq hb, hme] at h
          simp [P0.afterMe, hf] at h
      · rw [P0.authenticate_me_fail_p0 e up req a st dm m hreq hb hme] at h
        rw [← denied_eq_resp h]
        have hst : isSuccessStatus (st.getD 500) = false := by
          refine isSuccessStatus_getD st ?_
          have hw := hwf (reqToken req)
          rw [hme] at hw
          exact hw
        exact errOk_errorCons _ _ _ hst
    · simp only [Bool.not_eq_true] at hb
      rw [(authenticate_missing_denied e up req (Or.inr ⟨a, hreq, hb⟩)).2] at h
      rw [← denied_eq_resp h]
      exact errOk_errorCons _ _ _ (by decide)

/-- Route-level discipline from middleware-level and handler-level discipline. -/
theorem errOk_route {auth handler} (e : Env) (up : Upstream) (req : Request)
    (hd : ∀ r tr, auth e up req = (AuthResult.denied r, tr) → errOk r)
    (hh : ∀ u, errOk (handler e up u req).1) :
    errOk (route auth handler e up req).1 := by
  rcases h : auth e up req with ⟨ar, tr⟩
  cases ar with
  | denied r =>
    rw [route_denied h]
    exact hd r tr h
  | granted u =>
    rw [route_granted h]
    exact hh u

/-- The src/server.js balance operation satisfies the discipline. -/
theorem S.errOk_balanceHandler (e : Env) (up : Upstream) (u : Identity) :
    errOk (S.balanceHandler e up u).1 := by
  rcases hba : up.balance u.uid with d | ⟨st, dm, m⟩
  · rcases d with ⟨av, lk⟩
    cases av <;> cases lk <;>
      simp [S.balanceHandler, hba, errOk, hasErrorField, isSuccessStatus, optEntry, List.lookup]
  · simp [S.balanceHandler, hba, errOk, hasErrorField, isSuccessStatus, List.lookup]

/-- The src/server.js approve operation satisfies the discipline. -/
theorem S.errOk_approveHandler (e : Env) (up : Upstream) (req : Request) :
    errOk (S.approveHandler e up req).1 := by
  by_cases hv : jsFalsyStr req.bodyPaymentId = true
  · simp [S.approveHandler, hv, errOk, hasErrorField, isSuccessStatus, List.lookup]
  · simp only [Bool.not_eq_true] at hv
    rcases hap : up.approvePayment (req.bodyPaymentId.getD "") with d | ⟨st, dm, m⟩
    · rcases d with ⟨s1, s2, s3⟩
      cases s1 <;> cases s2 <;> cases s3 <;>
        simp [S.approveHandler, hv, hap, errOk, hasErrorField, isSuccessStatus, optEntry,
          List.lookup]
    · simp [S.approveHandler, hv, hap, errOk, hasErrorField, isSuccessStatus, List.lookup]

/-- The src/server.js complete operation satisfies the discipline. -/
theorem S.errOk_completeHandler (e : Env) (up : Upstream) (req : Request) :
    errOk (S.completeHandler e up req).1 := by
  by_cases hv : (jsFalsyStr req.bodyPaymentId || jsFalsyStr req.bodyTxid) = true
  · simp only [S.completeHandler, hv, if_true]
    simp [errOk, hasErrorField, isSuccessStatus, List.lookup]
  · simp only [Bool.not_eq_true] at hv
    rcases hco : up.completePayment (req.bodyPaymentId.getD "") (req.bodyTxid.getD "")
      with d | ⟨st, dm, m⟩
    · rcases d with ⟨s1, tx⟩
      rcases tx with _ | ⟨t1, t2⟩
      · cases s1 <;>
          simp [S.completeHandler, hv, hco, errOk, hasErrorField, isSuccessStatus, optEntry,
            Option.bind, List.lookup]
      · cases s1 <;> cases t2 <;>
          simp [S.completeHandler, hv, hco, errOk, hasErrorField, isSuccessStatus, optEntry,
            Option.bind, TxData.verified, List.lookup]
    · simp [S.completeHandler, hv, hco, errOk, hasErrorField, isSuccessStatus, List.lookup]

/-- The src/server.js payment-details operation satisfies the discipline. -/
theorem S.errOk_paymentHandler (e : Env) (up : Upstream) (req : Request) :
    errOk (S.paymentHandler e up req).1 := by
  rcases hpa : up.payment req.pathPaymentId with d | ⟨st, dm, m⟩
  · rcases d with ⟨f1, f2, f3, f4, tx⟩
    rcases tx with _ | ⟨t1, t2⟩
    · cases f1 <;> cases f2 <;> cases f3 <;> cases f4 <;>
        simp [S.paymentHandler, hpa, errOk, hasErrorField, isSuccessStatus, optEntry,
          Option.bind, List.lookup]
    · cases f1 <;> cases f2 <;> cases f3 <;> cases f4 <;> cases t1 <;> cases t2 <;>
        simp [S.paymentHandler, hpa, errOk, hasErrorField, isSuccessStatus, optEntry,
          Option.bind, TxData.txid, TxData.verified, List.lookup]
  · simp [S.paymentHandler, hpa, errOk, hasErrorField, isSuccessStatus, List.lookup]

/-- The part_000 balance operation satisfies the discipline. -/
theorem P0.errOk_balanceHandler_p0 (e : Env) (up : Upstream) (u : Identity)
    (hwf : ∀ uid, (up.balance uid).wfStatus) :
    errOk (P0.balanceHandler e up u).1 := by
  rcases hba : up.balance u.uid with d | ⟨st, dm, m⟩
  · rcases d with ⟨av, lk⟩
    cases av <;> cases lk <;>
      simp [P0.balanceHandler, hba, errOk, hasErrorField, isSuccessStatus, optEntry,
        List.lookup]
  · have hst : isSuccessStatus (st.getD 500) = false := by
      refine isSuccessStatus_getD st ?_
      have hw := hwf u.uid
      rw [hba] at hw
      exact hw
    simp only [P0.balanceHandler, hba]
    exact errOk_errorCons _ _ _ hst

/-- The part_000 approve operation satisfies the discipline. -/
theorem P0.errOk_approveHandler_p0 (e : Env) (up : Upstream) (req : Request)
    (hwf : ∀ pid, (up.approvePayment pid).wfStatus) :
    errOk (P0.approveHandler e up req).1 := by
  by_cases hv : jsFalsyStr req.bodyPaymentId = true
  · simp [P0.approveHandler, hv, errOk, hasErrorField, isSuccessStatus, List.lookup]
  · simp only [Bool.not_eq_true] at hv
    rcases hap : up.approvePayment (req.bodyPaymentId.getD "") with d | ⟨st, dm, m⟩
    · rcases d with ⟨s1, s2, s3⟩
      cases s1 <;>
        simp [P0.approveHandler, hv, hap, errOk, hasErrorField, isSuccessStatus, optEntry,
          List.lookup]
    · have hst : isSuccessStatus (st.getD 500) = false := by
        refine isSuccessStatus_getD st ?_
        have hw := hwf (req.bodyPaymentId.getD "")
        rw [hap] at hw
        exact hw
      simp only [P0.approveHandler, hv, Bool.false_eq_true, if_false, hap]
      exact errOk_errorCons _ _ _ hst

/-- The part_000 complete operation satisfies the discipline. -/
theorem P0.errOk_completeHandler_p0 (e : Env) (up : Upstream) (req : Request)
    (hwf : ∀ pid tx, (up.completePayment pid tx).wfStatus) :
    errOk (P0.completeHandler e up req).1 := by
  by_cases hv : (jsFalsyStr req.bodyPaymentId || jsFalsyStr req.bodyTxid) = true
  · simp only [P0.completeHandler, hv, if_true]
    simp [errOk, hasErrorField, isSuccessStatus, List.lookup]
  · simp only [Bool.not_eq_true] at hv
    rcases hco : up.completePayment (req.bodyPaymentId.getD "") (req.bodyTxid.getD "")
      with d | ⟨st, dm, m⟩
    · rcases d with ⟨s1, tx⟩
      cases s1 <;>
        simp [P0.completeHandler, hv, hco, errOk, hasErrorField, isSuccessStatus, optEntry,
          List.lookup]
    · have hst : isSuccessStatus (st.getD 500) = false := by
        refine isSuccessStatus_getD st ?_
        have hw := hwf (req.bodyPaymentId.getD "") (req.bodyTxid.getD "")
        rw [hco] at hw
        exact hw
      simp only [P0.completeHandler, hv, Bool.false_eq_true, if_false, hco]
      exact errOk_errorCons _ _ _ hst

/-- C8: for every route and every outcome, in both variants, a failure response
body carries an error field and a success response body never does: the error
field is present exactly when the status is not 2xx, given that upstream errors
carry non-2xx statuses as axios guarantees. -/
theorem c8_error_field_discipline (e : Env) (up : Upstream) (req : Request) (m : String)
    (hwf : Upstream.Wf up) :
    errOk (S.serveBalance e up req).1 ∧ errOk (S.serveApprove e up req).1 ∧
    errOk (S.serveComplete e up req).1 ∧ errOk (S.servePayment e up req).1 ∧
    errOk (S.healthResp e) ∧ errOk notFound ∧ errOk S.errorMw ∧
    errOk (P0.serveBalance e up req).1 ∧ errOk (P0.serveApprove e up req).1 ∧
    errOk (P0.serveComplete e up req).1 ∧ errOk (P0.servePayment e up req).1 ∧
    errOk (P0.healthResp e) ∧ errOk (P0.errorMw e m) := by
  obtain ⟨hme, hbal, hap, hco, hpay⟩ := hwf
  refine ⟨?_, ?_, ?_, ?_, ?_, ?_, ?_, ?_, ?_, ?_, ?_, ?_, ?_⟩
  · exact errOk_route e up req (S.errOk_auth_denied e up req hme)
      (fun u => S.errOk_balanceHandler e up u)
  · exact errOk_route e up req (S.errOk_auth_denied e up req hme)
      (fun _ => S.errOk_approveHandler e up req)
  · exact errOk_route e up req (S.errOk_auth_denied e up req hme)
      (fun _ => S.errOk_completeHandler e up req)
  · exact errOk_route e up req (S.errOk_auth_denied e up req hme)
      (fun _ => S.errOk_paymentHandler e up req)
  · simp [S.healthResp, errOk, hasErrorField, isSuccessStatus, List.lookup]
  · exact errOk_errorCons _ _ _ (by decide)
  · exact errOk_errorCons _ _ _ (by decide)
  · exact errOk_route e up req (P0.errOk_auth_denied_p0 e up req hme)
      (fun u => P0.errOk_balanceHandler_p0 e up u hbal)
  · exact errOk_route e up req (P0.errOk_auth_denied_p0 e up req hme)
      (fun _ => P0.errOk_approveHandler_p0 e up req hap)
  · exact errOk_route e up req (P0.errOk_auth_denied_p0 e up req hme)
      (fun _ => P0.errOk_completeHandler_p0 e up req hco)
  · simp [P0.servePayment, notFound, errOk, hasErrorField, isSuccessStatus, List.lookup]
  · simp [P0.healthResp, errOk, hasErrorField, isSuccessStatus, List.lookup]
  · unfold P0.errorMw
    exact errOk_errorCons _ _ _ (by decide)

/-- C8 witness: the discipline at a concrete well-formed upstream and request. -/
theorem c8_witness :
    Upstream.Wf sampleUp ∧
    (errOk (S.serveBalance sampleEnv sampleUp sampleReq).1 ∧
      errOk (S.serveApprove sampleEnv sampleUp sampleReq).1 ∧
      errOk (S.serveComplete sampleEnv sampleUp sampleReq).1 ∧
      errOk (S.servePayment sampleEnv sampleUp sampleReq).1 ∧
      errOk (S.healthResp sampleEnv) ∧ errOk notFound ∧ errOk S.errorMw ∧
      errOk (P0.serveBalance sampleEnv sampleUp sampleReq).1 ∧
      errOk (P0.serveApprove sampleEnv sampleUp sampleReq).1 ∧
      errOk (P0.serveComplete sampleEnv sampleUp sampleReq).1 ∧
      errOk (P0.servePayment sampleEnv sampleUp sampleReq).1 ∧
      errOk (P0.healthResp sampleEnv) ∧ errOk (P0.errorMw sampleEnv "boom")) :=
  have hwf : Upstream.Wf sampleUp :=
    ⟨fun _ => trivial, fun _ => trivial, fun _ => trivial, fun _ _ => trivial, fun _ => trivial⟩
  ⟨hwf, c8_error_field_discipline sampleEnv sampleUp sampleReq "boom" hwf⟩

/-- C10 counterexample: under identical upstream behaviour, the same successful
balance request gets the same status but response bodies with different field
names from the two variants, so they do not implement the same external
contract. -/
theorem c10_counterexample :
    (S.serveBalance sampleEnv sampleUp sampleReq).1.status =
      (P0.serveBalance sampleEnv sampleUp sampleReq).1.status ∧
    (S.serveBalance sampleEnv sampleUp sampleReq).1.body.map Prod.fst ≠
      (P0.serveBalance sampleEnv sampleUp sampleReq).1.body.map Prod.fst :=
  ⟨by decide, by decide⟩

/-- C10 amended: the two variants agree on the localized authentication
rejections (missing or non-Bearer header) and on the 404 shape, but they
diverge on the success body shapes of balance, approve, complete and health, on
the propagation of upstream error statuses for operations, on the
authentication-failure body, and part_000 does not serve the payment-details
route at all. -/
theorem c10_amended_contract_divergence :
    (∀ (e : Env) (up : Upstream) (xu bp bt : Option String) (pp : String),
      S.serveBalance e up ⟨none, xu, bp, bt, pp⟩ = (missingCred, []) ∧
      P0.serveBalance e up ⟨none, xu, bp, bt, pp⟩ = (missingCred, []) ∧
      S.serveApprove e up ⟨none, xu, bp, bt, pp⟩ = (missingCred, []) ∧
      P0.serveApprove e up ⟨none, xu, bp, bt, pp⟩ = (missingCred, []) ∧
      S.serveComplete e up ⟨none, xu, bp, bt, pp⟩ = (missingCred, []) ∧
      P0.serveComplete e up ⟨none, xu, bp, bt, pp⟩ = (missingCred, [])) ∧
    notFound = ⟨404, [("error", JVal.s "Endpoint not found")]⟩ ∧
    ((S.serveBalance sampleEnv sampleUp sampleReq).1.status =
        (P0.serveBalance sampleEnv sampleUp sampleReq).1.status ∧
      (S.serveBalance sampleEnv sampleUp sampleReq).1.body.map Prod.fst ≠
        (P0.serveBalance sampleEnv sampleUp sampleReq).1.body.map Prod.fst) ∧
    (S.serveApprove sampleEnv sampleUp sampleReq).1.body.map Prod.fst ≠
      (P0.serveApprove sampleEnv sampleUp sampleReq).1.body.map Prod.fst ∧
    (S.serveComplete sampleEnv sampleUp sampleReq).1.body.map Prod.fst ≠
      (P0.serveComplete sampleEnv sampleUp sampleReq).1.body.map Prod.fst ∧
    (S.healthResp sampleEnv).body.map Prod.fst ≠
      (P0.healthResp sampleEnv).body.map Prod.fst ∧
    ((S.servePayment sampleEnv sampleUp sampleReq).1.status = 200 ∧
      (P0.servePayment sampleEnv sampleUp sampleReq).1.status = 404) ∧
    ((S.serveBalance sampleEnv sampleUpBalFail sampleReq).1.status = 500 ∧
      (P0.serveBalance sampleEnv sampleUpBalFail sampleReq).1.status = 404) ∧
    (S.serveBalance sampleEnv sampleUpAuthFail sampleReq).1.body ≠
      (P0.serveBalance sampleEnv sampleUpAuthFail sampleReq).1.body := by
  refine ⟨?_, rfl, ⟨by decide, by decide⟩, by decide, by decide, by decide,
    ⟨by decide, by decide⟩, ⟨by decide, by decide⟩, by decide⟩
  intro e up xu bp bt pp
  have h := authenticate_missing_denied e up ⟨none, xu, bp, bt, pp⟩ (Or.inl rfl)
  exact ⟨route_denied h.1, route_denied h.2, route_denied h.1, route_denied h.2,
    route_denied h.1, route_denied h.2⟩

end Nimo
